import Mathlib

/-!
Shallow embedding of the document-reader backend (src/backend/app.py and
src/backend/config.py) and proofs about its retrieval-augmented
question-answering pipeline: chunking, domain classification, embedding-index
management, retrieval, provider fallback, citation backfill and citation
extraction.

External collaborators (the PDF extractor, the chromadb vector store, the
OpenAI / Gemini network calls, and the `re` regex engine used by the
rule-based matcher) are modelled as explicit oracle inputs; everything with
algorithmic content in the source is translated directly.  Python strings are
modelled by Lean `String` (lists of characters), floats occurring in the code
(search distances) by `ℚ`, and Python `None` by `Option`.
-/

/-- Whitespace test matching Python's `str.split` / `str.strip` / `\s`
(space, tab, newline, carriage return, vertical tab, form feed). -/
def pyIsSpace (c : Char) : Bool :=
  c = ' ' || c = '\t' || c = '\n' || c = '\r' || c = '\x0b' || c = '\x0c'

/-- Python `str.strip()` on a character list: drop leading and trailing
whitespace. -/
def pyStripL (cs : List Char) : List Char :=
  ((cs.dropWhile pyIsSpace).reverse.dropWhile pyIsSpace).reverse

/-- Python `str.strip()`. -/
def pyStrip (s : String) : String :=
  String.mk (pyStripL s.data)

/-- Python `str.lower()` (the source only compares ASCII text). -/
def pyLower (s : String) : String :=
  String.mk (s.data.map Char.toLower)

/-- Test whether `pat` is a prefix of `l`. -/
def listStartsWith : List Char → List Char → Bool
  | [], _ => true
  | _ :: _, [] => false
  | p :: ps, c :: cs => p = c && listStartsWith ps cs

/-- Test whether `pat` occurs as a contiguous sublist of `l`. -/
def listHasSub (pat : List Char) : List Char → Bool
  | [] => pat.isEmpty
  | c :: cs => listStartsWith pat (c :: cs) || listHasSub pat cs

/-- Python substring test `sub in s`. -/
def strContains (s sub : String) : Bool :=
  listHasSub sub.data s.data

/-- Python `str.endswith(suf)`. -/
def strEndsWith (s suf : String) : Bool :=
  listStartsWith suf.data.reverse s.data.reverse

/-- Worker for Python `str.split()` (no separator): split on whitespace runs,
dropping empty words.  The accumulator holds the current word reversed. -/
def pyWordsLoop : List Char → List Char → List (List Char)
  | [], acc => if acc = [] then [] else [acc.reverse]
  | c :: rest, acc =>
    if pyIsSpace c then
      if acc = [] then pyWordsLoop rest []
      else acc.reverse :: pyWordsLoop rest []
    else pyWordsLoop rest (c :: acc)

/-- Python `str.split()` with no arguments. -/
def pySplit (s : String) : List String :=
  (pyWordsLoop s.data []).map String.mk

/-- Value of a list of ASCII digit characters. -/
def digitsToNat (cs : List Char) : Nat :=
  cs.foldl (fun n c => 10 * n + (c.toNat - '0'.toNat)) 0

/-- Python `int(s)` on the token strings produced by the citation parser:
strip whitespace, allow an optional sign, then require at least one digit and
nothing else; `none` models the `ValueError` branch. -/
def pyToInt (s : String) : Option Int :=
  match pyStripL s.data with
  | [] => none
  | '-' :: ds =>
    if ds ≠ [] ∧ ds.all Char.isDigit then some (-(digitsToNat ds : Int)) else none
  | '+' :: ds =>
    if ds ≠ [] ∧ ds.all Char.isDigit then some (digitsToNat ds : Int) else none
  | ds =>
    if ds.all Char.isDigit then some (digitsToNat ds : Int) else none

/-- Python `str.split(sep)` for a one-character separator: split at every
occurrence, keeping empty pieces. -/
def splitOnCharL (sep : Char) : List Char → List (List Char)
  | [] => [[]]
  | c :: rest =>
    let r := splitOnCharL sep rest
    if c = sep then [] :: r else (c :: r.headD []) :: r.tail

/-- Python `str.split(sep)` on strings. -/
def pySplitOnChar (sep : Char) (s : String) : List String :=
  (splitOnCharL sep s.data).map String.mk

/-- Python `range(start, end + 1)` as used by the citation range expansion. -/
def rangeIncl (a b : Int) : List Int :=
  (List.range (b + 1 - a).toNat).map (fun i => a + (i : Int))

/-- Python `sorted(list(set(l)))` for integer lists: the ascending sequence of
the distinct elements of `l`. -/
def sortDedup (l : List Int) : List Int :=
  List.insertionSort (· ≤ ·) l.dedup

/-- Worker for `re.split(r"(?<=[.!?])\s+", text)` (app.py line 232): scan the
text; a whitespace character whose predecessor (the head of the reversed
accumulator `acc`) is `.`, `!` or `?` closes the current segment and starts a
separator run, and `inRun` records that the scan is inside such a run, whose
remaining whitespace is consumed greedily.  The trailing segment is always
emitted, so a text ending in a matched run yields a final empty sentence,
exactly as Python's `re.split` does. -/
def sentSplitLoop : List Char → List Char → Bool → List (List Char)
  | [], acc, _ => [acc.reverse]
  | c :: rest, acc, true =>
    if pyIsSpace c then sentSplitLoop rest acc true
    else sentSplitLoop rest [c] false
  | c :: rest, acc, false =>
    if pyIsSpace c ∧ (acc.headD ' ' = '.' ∨ acc.headD ' ' = '!' ∨ acc.headD ' ' = '?') then
      acc.reverse :: sentSplitLoop rest [] true
    else
      sentSplitLoop rest (c :: acc) false

/-- Sentence boundary split of app.py line 232. -/
def pySplitSentences (text : String) : List String :=
  (sentSplitLoop text.data [] false).map String.mk

/-- TextBlock record produced by the PDF extractor (app.py lines 656-665):
the extractor itself is an external collaborator, so blocks are opaque data
carried through chunking. -/
structure TextBlock where
  text : String
  bbox : ℚ × ℚ × ℚ × ℚ
  extraction_method : String
  deriving DecidableEq

/-- One element of `pages_data` as produced by `extract_text_from_pdf`
(app.py lines 712-719). -/
structure Page where
  page_num : Int
  text : String
  text_blocks : List TextBlock
  deriving DecidableEq

/-- One enhanced chunk (app.py lines 282-307).  `chunk_index` is `none` for
full-page chunks, which do not carry that key. -/
structure Chunk where
  id : String
  text : String
  page : Int
  chunk_type : String
  chunk_index : Option Nat
  word_count : Nat
  text_blocks : List TextBlock
  deriving DecidableEq

/-- Medical terminology indicators (app.py lines 90-127). -/
def medical_terms : List String :=
  [("patient"), ("diagnosis"), ("treatment"), ("medication"), ("doctor"),
   ("physician"), ("nurse"), ("hospital"), ("clinic"), ("medical"),
   ("surgery"), ("procedure"), ("symptoms"), ("condition"), ("prescription"),
   ("dosage"), ("therapy"), ("examination"), ("vital signs"),
   ("blood pressure"), ("heart rate"), ("temperature"), ("respiratory"),
   ("cardiovascular"), ("neurological"), ("pathology"), ("radiology"),
   ("laboratory"), ("discharge"), ("admission"), ("anesthesia"),
   ("post-operative"), ("pre-operative"), ("clinical"), ("healthcare"),
   ("medical record")]

/-- Legal terminology indicators (app.py lines 130-164). -/
def legal_terms : List String :=
  [("contract"), ("agreement"), ("clause"), ("party"), ("parties"),
   ("plaintiff"), ("defendant"), ("court"), ("judge"), ("attorney"),
   ("lawyer"), ("legal"), ("law"), ("statute"), ("regulation"),
   ("compliance"), ("liability"), ("damages"), ("settlement"),
   ("litigation"), ("jurisdiction"), ("whereas"), ("therefore"), ("hereby"),
   ("witnesseth"), ("consideration"), ("covenant"), ("indemnify"),
   ("breach"), ("termination"), ("arbitration"), ("governing law"),
   ("venue")]

/-- Count of list terms occurring in the lowered sample, i.e. Python
`sum(1 for term in terms if term in text_lower)` (app.py lines 166-167). -/
def termCount (terms : List String) (text_lower : String) : Nat :=
  terms.countP (fun term => strContains text_lower term)

/-- Domain classifier `detect_document_domain` (app.py lines 85-174). -/
def detect_document_domain (text_sample : String) : String :=
  let text_lower := pyLower text_sample
  let medical_count := termCount medical_terms text_lower
  let legal_count := termCount legal_terms text_lower
  if medical_count > legal_count ∧ medical_count ≥ 3 then ("medical")
  else if legal_count > medical_count ∧ legal_count ≥ 3 then ("legal")
  else ("general")

/-- Python `l[-n:]` for `n > 0`: the last `n` elements. -/
def lastN (n : Nat) (l : List String) : List String :=
  l.drop (l.length - n)

/-- One iteration of the sentence-accumulation loop of `chunk_text`
(app.py lines 237-253).  The state is `(chunks, current_chunk,
current_word_count)`. -/
def chunkStep (chunk_size overlap : Nat) (st : List String × String × Nat)
    (sentence : String) : List String × String × Nat :=
  let chunks := st.1
  let current_chunk := st.2.1
  let current_word_count := st.2.2
  let sentence_words := (pySplit sentence).length
  if current_word_count + sentence_words > chunk_size ∧ current_chunk ≠ ("") then
    let overlap_words := if overlap > 0 then lastN overlap (pySplit current_chunk) else []
    let new_chunk :=
      if overlap_words ≠ [] then
        String.intercalate (" ") overlap_words ++ (" ") ++ sentence
      else sentence
    (chunks ++ [pyStrip current_chunk], new_chunk, overlap_words.length + sentence_words)
  else
    let new_chunk :=
      if current_chunk ≠ ("") then current_chunk ++ (" ") ++ sentence else sentence
    (chunks, new_chunk, current_word_count + sentence_words)

/-- Python `range(0, n, step)` (empty for `step = 0`, where Python would
raise; the source only calls it with `step = 225`). -/
def windowStarts (n step : Nat) : List Nat :=
  if step = 0 then [] else List.range' 0 ((n + step - 1) / step) step

/-- Overlapping chunker `chunk_text` (app.py lines 227-268): sentence-based
accumulation with word overlap, then the word-window fallback when fewer than
2 chunks came out of an oversized text. -/
def chunk_text (text : String) (chunk_size : Nat := 300) (overlap : Nat := 75) :
    List String :=
  let sentences := pySplitSentences text
  let st := sentences.foldl (chunkStep chunk_size overlap) ([], (""), 0)
  let current_chunk := st.2.1
  let chunks :=
    if pyStrip current_chunk ≠ ("") then st.1 ++ [pyStrip current_chunk] else st.1
  if chunks.length < 2 ∧ (pySplit text).length > chunk_size then
    let words := pySplit text
    (windowStarts words.length (chunk_size - overlap)).filterMap (fun i =>
      let chunk := String.intercalate (" ") ((words.drop i).take chunk_size)
      if pyStrip chunk ≠ ("") then some (pyStrip chunk) else none)
  else chunks

/-- The `full_page` chunk of one page (app.py lines 282-291). -/
def fullPageChunkOf (page_data : Page) : Chunk :=
  { id := ("page_") ++ toString page_data.page_num, text := page_data.text,
    page := page_data.page_num, chunk_type := ("full_page"),
    chunk_index := none, word_count := (pySplit page_data.text).length,
    text_blocks := page_data.text_blocks }

/-- The `semantic` chunks of one page (app.py lines 293-307): one per
`chunk_text` result of more than 10 words, indexed by `enumerate`. -/
def semanticChunksOf (page_data : Page) : List Chunk :=
  (chunk_text page_data.text 300 75).enum.filterMap (fun ic =>
    if (pySplit ic.2).length > 10 then
      some { id := ("semantic_") ++ toString page_data.page_num ++ ("_") ++
               toString ic.1,
             text := ic.2, page := page_data.page_num,
             chunk_type := ("semantic"), chunk_index := some ic.1,
             word_count := (pySplit ic.2).length,
             text_blocks := page_data.text_blocks }
    else none)

/-- Chunks contributed by one page inside `create_enhanced_chunks`
(app.py lines 274-307): nothing for a blank page, else one `full_page` chunk
followed by the `semantic` chunks of more than 10 words. -/
def pageChunks (page_data : Page) : List Chunk :=
  if pyStrip page_data.text = ("") then []
  else fullPageChunkOf page_data :: semanticChunksOf page_data

/-- Layered chunking `create_enhanced_chunks` (app.py lines 270-309). -/
def create_enhanced_chunks (pages_data : List Page) : List Chunk :=
  (pages_data.map pageChunks).flatten

/-- Embedding half of `ModelConfig` (config.py lines 15-19). -/
structure EmbeddingConfig where
  provider : String
  model : String
  deriving DecidableEq

/-- Default embedding configuration of config.py lines 15-19 (environment
variables `EMBEDDING_PROVIDER` / `EMBEDDING_MODEL`, when set, would override
these fields; the default is what `ModelConfig.__init__` writes). -/
def default_embedding_config : EmbeddingConfig :=
  { provider := ("sentence-transformers"), model := ("all-mpnet-base-v2") }

/-- The module-level mutable state of app.py: the current document
(lines 74-77) and the embedding system handles (lines 79-82).  `none` models
Python `None` (and the initial empty list for the pages); the chromadb client
and collection handles and the loaded model are opaque, so only the data
needed by the control flow is kept: which handles are set, and the collection
name / model name. -/
structure Globals where
  current_pdf_path : Option String
  current_pdf_text : Option String
  current_pdf_pages : List Page
  embedding_model : Option String
  chroma_client : Bool
  collection : Option String
  deriving DecidableEq

/-- Fresh process state: every global unset. -/
def initialGlobals : Globals :=
  { current_pdf_path := none, current_pdf_text := none, current_pdf_pages := [],
    embedding_model := none, chroma_client := false, collection := none }

/-- Embedding-system (re)initialization `initialize_embedding_system`
(app.py lines 176-225) on the success path of the external libraries.
`loadOk` models whether loading the sentence-transformers model succeeds (a
failure raises, is caught at line 223, and returns `False` with neither
handle assigned).  Note that the `sentence-transformers` branch (lines
194-198) assigns only `embedding_model`: the collection set-up is reachable
only from the `openai` branch and the unsupported-provider branch. -/
def initialize_embedding_system (loadOk : Bool) (g : Globals)
    (provider model_name : String) (document_domain : String := ("general")) :
    Globals × Bool :=
  let g := { g with chroma_client := true }
  let collection_name := ("pdf_documents_") ++ document_domain
  if provider = ("sentence-transformers") then
    if loadOk then ({ g with embedding_model := some model_name }, true)
    else (g, false)
  else if provider = ("openai") then
    ({ g with embedding_model := some ("openai"),
              collection := some collection_name }, true)
  else
    ({ g with collection := some collection_name }, true)

/-- Metadata record built for each embedded chunk (app.py lines 338-347). -/
structure ChunkMetadata where
  page : Int
  chunk_type : String
  word_count : Nat
  text_blocks : List TextBlock
  chunk_index : Option Nat
  deriving DecidableEq

/-- Index population `create_embeddings_for_document` (app.py lines 311-370).
`hasModel` / `hasCollection` are the truthiness of the `embedding_model` /
`collection` globals.  The returned triple is `(ids, documents, result)`:
`ids` and `documents` are what the loop at lines 334-350 accumulates and the
batched `collection.add` calls (batches of 100, which concatenate back to the
full lists) insert, and `result` is the boolean return value.  The
clear-by-filter delete and an exception inside the `try` (which would return
`False`) are external-collaborator effects not modelled further. -/
def create_embeddings_for_document (hasModel hasCollection : Bool)
    (pages_data : List Page) : List String × List String × Bool :=
  if ¬ hasModel ∨ ¬ hasCollection then ([], [], false)
  else
    let enhanced_chunks := create_enhanced_chunks pages_data
    let kept := enhanced_chunks.filter (fun chunk =>
      pyStrip chunk.text ≠ ("") ∧ (pySplit chunk.text).length > 5)
    let documents := kept.map (fun chunk => chunk.text)
    let ids := kept.map (fun chunk => chunk.id)
    if documents ≠ [] then (ids, documents, true) else ([], [], false)

/-- Search result record built by `semantic_search` (app.py lines 396-404);
`metadata` is reduced to the `page` field the pipeline reads. -/
structure SearchResult where
  text : String
  page : Int
  distance : ℚ
  similarity : ℚ
  deriving DecidableEq

/-- Retrieval `semantic_search` (app.py lines 372-420).  `queryResult` is the
oracle for the single `collection.query` call: the ranked
(document, page-metadata, distance) triples.  With no collection the function
returns `[]` (line 377); otherwise each triple is normalized in native rank
order, with `similarity = 1 - distance` for truthy (nonzero) distance and
`1.0` for a falsy one (line 402). -/
def semantic_search (hasCollection : Bool)
    (queryResult : List (String × Int × ℚ)) : List SearchResult :=
  if ¬ hasCollection then []
  else
    queryResult.map (fun t =>
      { text := t.1, page := t.2.1, distance := t.2.2,
        similarity := if t.2.2 ≠ (0 : ℚ) then (1 : ℚ) - t.2.2 else (1 : ℚ) })

/-- Environment of one `ask` request: the process provider configuration and
the outcomes of the external calls.  `openaiResult` / `geminiResult` are the
oracles for the two generation API calls (`.error` models the raised
provider exception resp. the failing `generate_content` call);
`re_findall` is the `re.findall(pattern, text, re.IGNORECASE)` engine used by
the rule-based matcher's signature and date patterns; `queryResult` is the
vector-store answer for the request's single similarity query. -/
structure AskEnv where
  provider : String
  openai_client : Bool
  gemini_api_key : Bool
  openaiResult : Except String String
  geminiResult : Except String String
  re_findall : String → String → List String
  queryResult : List (String × Int × ℚ)

/-- Citation backfill appended by both generation adapters when the model
reply lacks a source tag (app.py lines 486-495 and the verbatim copy at
lines 547-556): raw single source → `(Source: Page N)`; otherwise sort and
deduplicate, with up to 3 distinct pages listed and more compressed to a
`min-max` range. -/
def ensureSourceCitation (answer : String) (page_sources : List Int) : String :=
  if strContains answer ("(Source:") = false ∧ page_sources ≠ [] then
    match page_sources with
    | [p] => answer ++ (" (Source: Page ") ++ toString p ++ (")")
    | _ =>
      let sorted_pages := sortDedup page_sources
      if sorted_pages.length ≤ 3 then
        answer ++ (" (Source: Pages ") ++
          String.intercalate (", ") (sorted_pages.map toString) ++ (")")
      else
        answer ++ (" (Source: Pages ") ++ toString (sorted_pages.headD 0) ++
          ("-") ++ toString (sorted_pages.getLastD 0) ++ (")")
  else answer

/-- OpenAI adapter `answer_question_with_openai` (app.py lines 422-501):
raises (`.error`) when the client is unconfigured or the API call fails,
otherwise strips the reply and applies the citation backfill.  `question`
and `context_text` only feed the prompt behind the oracle. -/
def answer_question_with_openai (env : AskEnv) (question : String)
    (context_text : Option String) (page_sources : List Int) :
    Except String String :=
  let _ := question
  let _ := context_text
  if env.openai_client = false then .error ("OpenAI client not initialized")
  else
    match env.openaiResult with
    | .error e => .error e
    | .ok content => .ok (ensureSourceCitation (pyStrip content) page_sources)

/-- Gemini adapter `answer_question_with_gemini` (app.py lines 503-562): the
whole body sits in a `try` whose handler RETURNS the string
`"Error generating answer: ..."` (line 562) instead of re-raising, so this
adapter never fails as far as its callers can see. -/
def answer_question_with_gemini (env : AskEnv) (question : String)
    (context_text : Option String) (page_sources : List Int) : String :=
  let _ := question
  let _ := context_text
  match env.geminiResult with
  | .error e => ("Error generating answer: ") ++ e
  | .ok text => ensureSourceCitation (pyStrip text) page_sources

/-- Signature regex patterns of the rule-based matcher (app.py
lines 737-741), kept as the literal pattern strings handed to the external
regex engine. -/
def signature_patterns : List String :=
  [("signed by ([A-Za-z\\s]+(?:MD|Dr\\.?|RN|NP))"),
   ("signature[:\\s]*([A-Za-z\\s]+)"),
   ("([A-Za-z\\s]+(?:MD|Dr\\.?|RN|NP))[,\\s]*signature")]

/-- Date regex patterns of the rule-based matcher (app.py lines 751-755). -/
def date_patterns : List String :=
  [("\\b\\d\x7b1,2\x7d[/-]\\d\x7b1,2\x7d[/-]\\d\x7b2,4\x7d\\b"),
   ("\\b(?:January|February|March|April|May|June|July|August|September|October|November|December)\\s+\\d\x7b1,2\x7d,?\\s+\\d\x7b4\x7d\\b"),
   ("\\b\\d\x7b1,2\x7d\\s+(?:Jan|Feb|Mar|Apr|May|Jun|Jul|Aug|Sep|Oct|Nov|Dec)\\s+\\d\x7b4\x7d\\b")]

/-- Matches of the first pattern in `patterns` for which `re_findall` returns
a non-empty list (the `for pattern ...: if matches: return` shape of app.py
lines 743-747 and 757-761). -/
def firstPatternMatches (re_findall : String → String → List String)
    (patterns : List String) (text : String) : Option (List String) :=
  match patterns with
  | [] => none
  | p :: rest =>
    let ms := re_findall p text
    if ms ≠ [] then some ms
    else firstPatternMatches re_findall rest text

/-- Fixed no-information reply of the rule-based matcher (app.py
lines 764-767). -/
def couldntFindAnswer : String :=
  ("I couldn't find specific information to answer your question in the document.")

/-- Deterministic pattern matcher `answer_question_simple` (app.py
lines 729-767).  Only reached when no generation provider produced an
answer; returns `(answer, [])`. -/
def answer_question_simple (re_findall : String → String → List String)
    (question : String) (pages_data : List Page) : String × List Int :=
  let question_lower := pyLower question
  let all_text := String.intercalate (" ") (pages_data.map (fun page => page.text))
  if strContains question_lower ("who signed") ∨ strContains question_lower ("signed by") then
    match firstPatternMatches re_findall signature_patterns all_text with
    | some ms =>
      (("The document was signed by: ") ++ String.intercalate (", ") ms, [])
    | none => (couldntFindAnswer, [])
  else if strContains question_lower ("date") ∨ strContains question_lower ("when") then
    match firstPatternMatches re_findall date_patterns all_text with
    | some ms => (("Found dates: ") ++ String.intercalate (", ") ms, [])
    | none => (couldntFindAnswer, [])
  else (couldntFindAnswer, [])

/-- Provider dispatch with fallback chain `answer_question_with_embeddings`
(app.py lines 564-612): try the configured provider, then OpenAI if it was
not the configured one, then Gemini likewise, and finally the deterministic
matcher.  A Gemini attempt never raises (see `answer_question_with_gemini`),
so a reached Gemini call always ends the chain. -/
def answer_question_with_embeddings (env : AskEnv) (question : String)
    (pages_data : List Page) (context_text : Option String)
    (page_sources : List Int) : String × List Int :=
  let primary : Except String String :=
    if env.provider = ("openai") ∧ env.openai_client = true then
      answer_question_with_openai env question context_text page_sources
    else if env.provider = ("gemini") ∧ env.gemini_api_key = true then
      .ok (answer_question_with_gemini env question context_text page_sources)
    else
      .error (("Provider ") ++ env.provider ++ (" not available or not configured"))
  match primary with
  | .ok answer => (answer, [])
  | .error _ =>
    let fromOpenai : Option String :=
      if env.provider ≠ ("openai") ∧ env.openai_client = true then
        (answer_question_with_openai env question context_text page_sources).toOption
      else none
    match fromOpenai with
    | some answer => (answer, [])
    | none =>
      if env.provider ≠ ("gemini") ∧ env.gemini_api_key = true then
        (answer_question_with_gemini env question context_text page_sources, [])
      else
        answer_question_simple env.re_findall question pages_data

/-- Match a literal keyword case-insensitively at the head of `cs`, returning
the remainder. -/
def matchCI : List Char → List Char → Option (List Char)
  | [], cs => some cs
  | _ :: _, [] => none
  | p :: ps, c :: cs => if c.toLower = p then matchCI ps cs else none

/-- Character class `[\d,\s-]` of the citation pattern. -/
def isCiteClass (c : Char) : Bool :=
  c.isDigit || c = ',' || c = '-' || pyIsSpace c

def citeSkipS (r3 : List Char) : List Char :=
  match r3 with
  | c :: cs' => if c.toLower = 's' then cs' else r3
  | [] => r3

/-- Captured group extracted from the maximal `[\d,\s-]` run, after the
backtracking of the preceding greedy `\s*`. -/
def citeGroupOf (run : List Char) : List Char :=
  let grp := run.dropWhile pyIsSpace
  if grp = [] then [run.getLastD ' '] else grp

/-- Tail of the citation regex `\(Source:\s*Pages?\s*([\d,\s-]+)\)`
(app.py line 954, compiled with `re.IGNORECASE`): starting right after the
matched literal `Page`, match the optional `s`, then `\s*([\d,\s-]+)\)`,
returning the captured group and the remainder after the closing paren.
Since `)` is not in the bracketed class, the greedy group plus closing paren
amount to: take the maximal class run, require a following `)`.  The greedy
`\s*` before the group backtracks just enough to leave the group non-empty,
so the group is the run without its leading whitespace — or the run's last
character when the run is all whitespace. -/
def citeGroupAt (r3 : List Char) : Option (List Char × List Char) :=
  let r4 := citeSkipS r3
  let run := r4.takeWhile isCiteClass
  if run = [] then none
  else
    match r4.dropWhile isCiteClass with
    | ')' :: tail => some (citeGroupOf run, tail)
    | _ => none

/-- Match the whole citation pattern at the head of `cs`: the case-insensitive
literal `(Source:`, optional whitespace, `Page`, then `citeGroupAt` for the
optional `s`, the captured group and the closing paren. -/
def citeMatchAt (cs : List Char) : Option (List Char × List Char) :=
  (matchCI ("(source:").data cs).bind (fun r1 =>
    (matchCI ("page").data (r1.dropWhile pyIsSpace)).bind citeGroupAt)

/-- Worker for `re.findall` with the citation pattern: collect the captured
group of every position where the pattern matches.  `re.findall` scans
non-overlapping matches left to right, but for this particular pattern every
match starts with `(` and contains no further `(` (every later character of a
match is drawn from `Source:`, `Page(s)`, whitespace, `[\d,\s-]` or the
closing `)`), so two matches can never overlap and the positional scan
returns exactly the non-overlapping match groups. -/
def findCiteLoop : List Char → List (List Char)
  | [] => []
  | c :: rest =>
    match citeMatchAt (c :: rest) with
    | some gr => gr.1 :: findCiteLoop rest
    | none => findCiteLoop rest

/-- All captured groups of
`re.findall(r"\(Source:\s*Pages?\s*([\d,\s-]+)\)", answer, re.IGNORECASE)`
(app.py lines 953-958). -/
def findCitationGroups (answer : String) : List String :=
  (findCiteLoop answer.data).map String.mk

/-- Numbers contributed by one comma-separated token of a citation match
(app.py lines 962-977): strip; a token containing `-` is expanded as an
inclusive range (silently skipped unless it splits into exactly two parseable
integers); any other token is a single integer (skipped when unparseable). -/
def processPart (part : String) : List Int :=
  let part := pyStrip part
  if part.data.contains '-' then
    match pySplitOnChar '-' part with
    | [s, e] =>
      match pyToInt s, pyToInt e with
      | some a, some b => rangeIncl a b
      | _, _ => []
    | _ => []
  else
    match pyToInt part with
    | some n => [n]
    | none => []

/-- Citation extraction from the final answer text (app.py lines 950-977):
every captured group, split on commas when one is present, each token
processed by `processPart`; the guard `if answer` makes an empty answer
contribute nothing. -/
def extract_cited_pages (answer : String) : List Int :=
  if answer = ("") then []
  else
    (findCitationGroups answer).flatMap (fun m =>
      let page_parts := if m.data.contains ',' then pySplitOnChar ',' m else [m]
      page_parts.flatMap processPart)

/-- Citation reconciliation of `ask_question` (app.py lines 949-984): parsed
pages, else the raw retrieval `page_sources` when nothing parsed, then
`sorted(list(set(...)))`. -/
def resolve_cited_pages (answer : String) (page_sources : List Int) : List Int :=
  let cited := extract_cited_pages answer
  let cited := if cited = [] ∧ page_sources ≠ [] then page_sources else cited
  sortDedup cited

/-- Response payload of a successful `ask` request (app.py lines 986-994). -/
structure AskResponse where
  answer : String
  cited_pages : List Int
  method : String
  context : Option String
  pages_used : List Int
  deriving DecidableEq

/-- Branch condition `if embedding_model and collection` of app.py line 927:
the embedding-based path (and with it semantic retrieval) is used only when
both handles are truthy. -/
def ask_used_index (g : Globals) : Bool :=
  g.embedding_model.isSome && g.collection.isSome

/-- Request handler `ask_question` (app.py lines 909-996).  `.error` models
the 400 responses for a missing document or blank question.  The `method`
field reported to the client is computed at line 990 from `embedding_model`
alone. -/
def ask_question (g : Globals) (env : AskEnv) (question : String) :
    Except String AskResponse :=
  if g.current_pdf_pages = [] then .error ("No PDF uploaded")
  else if question = ("") then .error ("No question provided")
  else
    let branch :=
      if ask_used_index g then
        let relevant_chunks := semantic_search g.collection.isSome env.queryResult
        let ctx_srcs :=
          if relevant_chunks ≠ [] then
            (some (String.intercalate ("\n\n") (relevant_chunks.map (fun chunk =>
                ("=== PAGE ") ++ toString chunk.page ++ (" ===\n") ++ chunk.text ++
                ("\n=== END PAGE ") ++ toString chunk.page ++ (" ===")))),
             relevant_chunks.map (fun chunk => chunk.page))
          else (none, [])
        ((answer_question_with_embeddings env question g.current_pdf_pages
            ctx_srcs.1 ctx_srcs.2).1, ctx_srcs.1, ctx_srcs.2)
      else
        ((answer_question_simple env.re_findall question g.current_pdf_pages).1,
         none, [])
    let answer := branch.1
    let context_text := branch.2.1
    let page_sources := branch.2.2
    .ok { answer := answer,
          cited_pages := resolve_cited_pages answer page_sources,
          method := if g.embedding_model.isSome then ("embeddings") else ("simple"),
          context := context_text,
          pages_used := page_sources }

/-- App-level size limit `MAX_CONTENT_LENGTH` (app.py line 49). -/
def MAX_CONTENT_LENGTH : Nat := 150 * 1024 * 1024

/-- Outcome of an upload request: HTTP status, response fields, and whether
the persisted upload file is still on disk afterwards (the handler removes
it on every failure after the save, app.py lines 830-833 and 875-881). -/
structure UploadResult where
  ok : Bool
  status : Nat
  pages : Nat
  embeddings_created : Bool
  document_domain : String
  fileRetained : Bool
  deriving DecidableEq

/-- Request handler `upload_file` (app.py lines 769-903), from the size check
onwards (a request with no file part or an empty filename returns 400 before
any state is touched).  `extract_result` is the oracle for
`extract_text_from_pdf`: `.error` models a raised extraction exception.  Note
the assignment order of lines 814-823: `current_pdf_pages` is assigned from
the extractor BEFORE the emptiness check, so a zero-page extraction has
already overwritten the pages global when the handler raises, while
`current_pdf_path` and `current_pdf_text` are only assigned afterwards.
`loadOk` models the sentence-transformers model load inside the embedding
step (whose failures are absorbed at lines 853-856). -/
def upload_file (g : Globals) (embCfg : EmbeddingConfig) (loadOk : Bool)
    (filename : String) (file_size : Nat)
    (extract_result : Except String (List Page)) : Globals × UploadResult :=
  if file_size > MAX_CONTENT_LENGTH then
    (g, { ok := false, status := 413, pages := 0, embeddings_created := false,
          document_domain := (""), fileRetained := false })
  else if ¬ strEndsWith (pyLower filename) (".pdf") then
    (g, { ok := false, status := 400, pages := 0, embeddings_created := false,
          document_domain := (""), fileRetained := false })
  else
    match extract_result with
    | .error _ =>
      (g, { ok := false, status := 500, pages := 0, embeddings_created := false,
            document_domain := (""), fileRetained := false })
    | .ok pages =>
      if pages = [] then
        ({ g with current_pdf_pages := [] },
         { ok := false, status := 500, pages := 0, embeddings_created := false,
           document_domain := (""), fileRetained := false })
      else
        let text := String.intercalate (" ") (pages.map (fun page => page.text))
        let g1 := { g with current_pdf_pages := pages,
                           current_pdf_path := some filename,
                           current_pdf_text := some text }
        let text_sample := if text ≠ ("") then text.take 2000 else ("")
        let document_domain := detect_document_domain text_sample
        let g2 :=
          if g1.embedding_model.isNone then
            (initialize_embedding_system loadOk g1 embCfg.provider embCfg.model
              document_domain).1
          else g1
        let embeddings_created :=
          if g2.embedding_model.isSome then
            (create_embeddings_for_document g2.embedding_model.isSome
              g2.collection.isSome pages).2.2
          else false
        (g2, { ok := true, status := 200, pages := pages.length,
               embeddings_created := embeddings_created,
               document_domain := document_domain, fileRetained := true })

instance exceptDecEq {α β : Type} [DecidableEq α] [DecidableEq β] :
    DecidableEq (Except α β) := fun x y =>
  match x, y with
  | .error a, .error b =>
    if h : a = b then .isTrue (by rw [h])
    else .isFalse (fun hc => h (Except.error.inj hc))
  | .ok a, .ok b =>
    if h : a = b then .isTrue (by rw [h])
    else .isFalse (fun hc => h (Except.ok.inj hc))
  | .error _, .ok _ => .isFalse (fun hc => Except.noConfusion hc)
  | .ok _, .error _ => .isFalse (fun hc => Except.noConfusion hc)

def pageA : Page := { page_num := 1, text := ("hello world"), text_blocks := [] }

def reNone : String → String → List String := fun _ _ => []

def envNoProviders : AskEnv :=
  { provider := ("openai"), openai_client := false, gemini_api_key := false,
    openaiResult := .error ("no client"), geminiResult := .error ("no key"),
    re_findall := reNone, queryResult := [] }

def blankPage : Page := { page_num := 2, text := ("   "), text_blocks := [] }

def tinyPage : Page := { page_num := 5, text := ("Tiny page here."), text_blocks := [] }

def envBothOk : AskEnv :=
  { provider := ("openai"), openai_client := true, gemini_api_key := true,
    openaiResult := .ok ("An answer."), geminiResult := .ok ("An answer."),
    re_findall := reNone, queryResult := [] }

def envC1 : AskEnv :=
  { provider := ("gemini"), openai_client := false, gemini_api_key := true,
    openaiResult := .error ("unavailable"),
    geminiResult := .error ("quota exceeded"),
    re_findall := reNone, queryResult := [] }

def envNoGemini : AskEnv :=
  { provider := ("openai"), openai_client := true, gemini_api_key := false,
    openaiResult := .error ("boom"), geminiResult := .error ("x"),
    re_findall := reNone, queryResult := [] }

def pOld : Page := { page_num := 1, text := ("old page text"), text_blocks := [] }

def gOld : Globals :=
  { current_pdf_path := some ("old.pdf"), current_pdf_text := some ("old page text"),
    current_pdf_pages := [pOld], embedding_model := none, chroma_client := false,
    collection := none }

def gIdx : Globals :=
  { current_pdf_path := none, current_pdf_text := none,
    current_pdf_pages := [pageA],
    embedding_model := some ("all-mpnet-base-v2"), chroma_client := true,
    collection := some ("pdf_documents_general") }

def envGemCite : AskEnv :=
  { provider := ("gemini"), openai_client := false, gemini_api_key := true,
    openaiResult := .error ("no"),
    geminiResult := .ok ("See pages. (Source: Pages 3, 1)"),
    re_findall := reNone, queryResult := [] }

theorem sortDedup_sorted (l : List Int) :
    List.Sorted (· ≤ ·) (sortDedup l) :=
  List.sorted_insertionSort _ _

theorem sortDedup_nodup (l : List Int) : (sortDedup l).Nodup :=
  ((List.perm_insertionSort _ _).nodup_iff).mpr l.nodup_dedup

theorem sortDedup_pairwise_lt (l : List Int) :
    List.Pairwise (· < ·) (sortDedup l) := by
  have hs := sortDedup_sorted l
  have hn := sortDedup_nodup l
  exact (List.Pairwise.and hs hn).imp (fun h => lt_of_le_of_ne h.1 h.2)

example : pySplit ("  one two   three ") = [("one"), ("two"), ("three")] := by decide

example : pyStrip ("  a b  ") = ("a b") := by decide

example : pyToInt (" 12 ") = some 12 := by decide

example : pyToInt ("1 2") = none := by decide

example : pyToInt ("") = none := by decide

example : rangeIncl 2 4 = [2, 3, 4] := by decide

example : rangeIncl 5 2 = [] := by decide

example : sortDedup [3, 1, 3, 2] = [1, 2, 3] := by decide

example : strContains ("I couldn't find it") ("couldn't") = true := by decide

example : findCitationGroups ("(Source: Pages 1, 3, 5)") = [("1, 3, 5")] := by decide

example : findCitationGroups ("(Source: Pages 1, x, 3)") = [] := by decide

example : findCitationGroups ("(Source: Pages )") = [(" ")] := by decide

example : findCitationGroups ("(source: page 12) and (Source: Pages 5-6)") = [("12"), ("5-6")] := by decide

example : findCitationGroups ("(Source: Pagess 3)") = [] := by decide

example : findCitationGroups ("(Source: Page s 3)") = [] := by decide

example : findCitationGroups ("x(Source: Page 1)(Source: Page 2)") = [("1"), ("2")] := by decide

example : findCitationGroups ("(Source:Pages3)") = [("3")] := by decide

example : extract_cited_pages ("(Source: Pages 1, 3, 5)") = [1, 3, 5] := by decide

example : extract_cited_pages ("(Source: Pages 2-4)") = [2, 3, 4] := by decide

example : extract_cited_pages ("(Source: Pages 1,,3)") = [1, 3] := by decide

example : extract_cited_pages ("(Source: Page -2)") = [] := by decide

example : extract_cited_pages ("(Source: Pages 5-2)") = [] := by decide

example : extract_cited_pages ("(Source: Pages 1 2)") = [] := by decide

example : resolve_cited_pages ("nothing here") [3, 1, 3] = [1, 3] := by decide

example : chunk_text ("one two three. four five six seven. eight nine. ten.") 5 2 =
    [("one two three."), ("two three. four five six seven."), ("six seven. eight nine. ten.")] := by decide

example : chunk_text ("a b c d e f g h i j k l") 5 2 =
    [("a b c d e"), ("d e f g h"), ("g h i j k"), ("j k l")] := by decide

example : chunk_text ("") 5 2 = [] := by decide

example : chunk_text ("Hello world. ") 5 2 = [("Hello world.")] := by decide

example : chunk_text ("w1 w2 w3! w4 w5 w6 w7 w8? w9.") 6 3 =
    [("w1 w2 w3!"), ("w1 w2 w3! w4 w5 w6 w7 w8?"), ("w6 w7 w8? w9.")] := by decide

example : pySplitSentences ("Hi.Bye. Go") = [("Hi.Bye."), ("Go")] := by decide

example : pySplitSentences ("a. ") = [("a."), ("")] := by decide

example : pySplitSentences (" a") = [(" a")] := by decide

example :
    (upload_file initialGlobals default_embedding_config true ("doc.pdf") 100
      (.ok [pageA])).2.embeddings_created = false := by decide

example :
    (upload_file initialGlobals default_embedding_config true ("doc.pdf") 100
      (.ok [pageA])).1.embedding_model = some ("all-mpnet-base-v2") := by decide

example :
    ask_question
      (upload_file initialGlobals default_embedding_config true ("doc.pdf") 100
        (.ok [pageA])).1 envNoProviders ("hello") =
    .ok { answer := couldntFindAnswer, cited_pages := [],
          method := ("embeddings"), context := none, pages_used := [] } := by decide

/-- Every chunk produced by `semanticChunksOf` has type `semantic` and more
than 10 words. -/

theorem semanticChunksOf_mem (p : Page) (c : Chunk) (h : c ∈ semanticChunksOf p) :
    c.chunk_type = ("semantic") ∧ c.word_count > 10 := by
  unfold semanticChunksOf at h
  rcases List.mem_filterMap.mp h with ⟨ic, -, hf⟩
  by_cases h10 : (pySplit ic.2).length > 10
  · rw [if_pos h10] at hf
    cases Option.some.inj hf
    exact ⟨rfl, h10⟩
  · rw [if_neg h10] at hf
    exact absurd hf (by simp)

/-- C9: `detect_document_domain` returns `"medical"` iff the medical term
count strictly exceeds the legal term count and is at least 3, returns
`"legal"` under the symmetric condition, and returns `"general"` in every
other case — in particular on a tie or when both counts are below 3. -/

theorem C9_domain_decision (sample : String) :
    (detect_document_domain sample = ("medical") ↔
      termCount medical_terms (pyLower sample) > termCount legal_terms (pyLower sample) ∧
        termCount medical_terms (pyLower sample) ≥ 3)
  ∧ (detect_document_domain sample = ("legal") ↔
      termCount legal_terms (pyLower sample) > termCount medical_terms (pyLower sample) ∧
        termCount legal_terms (pyLower sample) ≥ 3)
  ∧ (detect_document_domain sample = ("general") ↔
      ¬(termCount medical_terms (pyLower sample) > termCount legal_terms (pyLower sample) ∧
          termCount medical_terms (pyLower sample) ≥ 3) ∧
      ¬(termCount legal_terms (pyLower sample) > termCount medical_terms (pyLower sample) ∧
          termCount legal_terms (pyLower sample) ≥ 3)) := by
  unfold detect_document_domain
  dsimp only
  split_ifs with h1 h2
  · refine ⟨iff_of_true rfl h1, iff_of_false (by decide) ?_, iff_of_false (by decide) ?_⟩
    · rintro ⟨hgt, -⟩
      exact absurd h1.1 (by omega)
    · rintro ⟨hna, -⟩
      exact hna h1
  · refine ⟨iff_of_false (by decide) h1, iff_of_true rfl h2, iff_of_false (by decide) ?_⟩
    rintro ⟨-, hnb⟩
    exact hnb h2
  · exact ⟨iff_of_false (by decide) h1, iff_of_false (by decide) h2,
      iff_of_true rfl ⟨h1, h2⟩⟩

/-- Witness for C9 at concrete samples. -/

theorem C9_domain_decision_witness :
    detect_document_domain ("the patient diagnosis by the physician") = ("medical")
  ∧ detect_document_domain ("hello world") = ("general") := by
  constructor
  · exact (C9_domain_decision ("the patient diagnosis by the physician")).1.mpr (by decide)
  · exact (C9_domain_decision ("hello world")).2.2.mpr (by decide)

/-- C8: a blank page yields zero chunks; a non-blank page yields exactly one
`full_page` chunk (never discarded regardless of length); and every
`semantic` chunk emitted for any page list has word_count strictly greater
than 10. -/

theorem C8_enhanced_chunks (p : Page) (pages : List Page) :
    (pyStrip p.text = ("") → create_enhanced_chunks [p] = [])
  ∧ (pyStrip p.text ≠ ("") →
      (create_enhanced_chunks [p]).countP
        (fun c => c.chunk_type == ("full_page")) = 1)
  ∧ (∀ c ∈ create_enhanced_chunks pages,
      c.chunk_type = ("semantic") → c.word_count > 10) := by
  refine ⟨?_, ?_, ?_⟩
  · intro hb
    simp [create_enhanced_chunks, pageChunks, hb]
  · intro hb
    have hpc : pageChunks p = fullPageChunkOf p :: semanticChunksOf p := by
      unfold pageChunks
      rw [if_neg hb]
    have hz : (semanticChunksOf p).countP (fun c => c.chunk_type == ("full_page")) = 0 := by
      rw [List.countP_eq_zero]
      intro c hc
      have h1 := (semanticChunksOf_mem p c hc).1
      simp [h1]
    simp [create_enhanced_chunks, hpc, List.countP_cons, hz, fullPageChunkOf]
  · intro c hc hsem
    have hex : ∃ q, q ∈ pages ∧ c ∈ pageChunks q := by
      simpa [create_enhanced_chunks] using hc
    rcases hex with ⟨q, -, hcl⟩
    by_cases hb : pyStrip q.text = ("")
    · rw [pageChunks, if_pos hb] at hcl
      exact absurd hcl (by simp)
    · rw [pageChunks, if_neg hb] at hcl
      rcases List.mem_cons.mp hcl with rfl | hmem
      · exact absurd hsem (by simp [fullPageChunkOf])
      · exact (semanticChunksOf_mem q c hmem).2

/-- Witness for C8 at a blank and a non-blank page. -/

theorem C8_enhanced_chunks_witness :
    create_enhanced_chunks [blankPage] = []
  ∧ (create_enhanced_chunks [pageA]).countP
      (fun c => c.chunk_type == ("full_page")) = 1 := by
  constructor
  · exact (C8_enhanced_chunks blankPage []).1 (by decide)
  · exact (C8_enhanced_chunks pageA []).2.1 (by decide)

/-- C10: before insertion, `create_embeddings_for_document` keeps exactly the
chunks whose text is non-blank and has strictly more than 5 words (the ids it
inserts are those of the filtered chunk list); in particular the `full_page`
chunk of a 3-word page survives `create_enhanced_chunks` but is excluded from
the index — and with every chunk excluded the function even returns
`false`. -/

theorem C10_index_word_filter (pages : List Page) :
    ((create_embeddings_for_document true true pages).1 =
      ((create_enhanced_chunks pages).filter (fun chunk =>
        pyStrip chunk.text ≠ ("") ∧ (pySplit chunk.text).length > 5)).map
          (fun chunk => chunk.id))
  ∧ fullPageChunkOf tinyPage ∈ create_enhanced_chunks [tinyPage]
  ∧ create_embeddings_for_document true true [tinyPage] = ([], [], false) := by
  refine ⟨?_, by decide, by decide⟩
  unfold create_embeddings_for_document
  rw [if_neg (by simp)]
  dsimp only
  split
  · rfl
  · next hdoc =>
    have h0 : ((create_enhanced_chunks pages).filter (fun chunk =>
        pyStrip chunk.text ≠ ("") ∧ (pySplit chunk.text).length > 5)) = [] := by
      by_contra hne
      exact hdoc (by simpa using hne)
    rw [h0]
    rfl

/-- C7 counterexample: the claim also asserts every similarity lies in
`[0, 1]`, but `semantic_search` computes `1 - distance` unclamped, so a
returned distance of `3/2` (cosine distances from the index range up to 2)
yields similarity `-1/2`, outside `[0, 1]`.  The claim as stated is false. -/

theorem C7_counterexample :
    (semantic_search true [(("t"), (1 : Int), (3 : ℚ) / 2)]).map
        (fun r => r.similarity) = [-(1 / 2 : ℚ)]
  ∧ ¬((0 : ℚ) ≤ -(1 / 2 : ℚ)) := by
  constructor
  · norm_num [semantic_search]
  · norm_num

/-- C7 (amended): every result of `semantic_search` has
`similarity = 1 - distance` for a nonzero distance and `1` for a zero
distance, results keep the index's native rank order (the texts come back in
exactly the query-result order, and a missing collection yields `[]`), and
the similarity lies in `[0, 1]` exactly when the returned distance lies in
`[0, 1]` — which the code does not enforce. -/

theorem C7_similarity (qr : List (String × Int × ℚ)) :
    ((semantic_search true qr).map (fun r => r.text) = qr.map (fun t => t.1))
  ∧ (∀ r ∈ semantic_search true qr,
      (r.distance = 0 → r.similarity = 1)
      ∧ (r.distance ≠ 0 → r.similarity = 1 - r.distance)
      ∧ (0 ≤ r.distance → r.distance ≤ 1 → 0 ≤ r.similarity ∧ r.similarity ≤ 1))
  ∧ semantic_search false qr = [] := by
  refine ⟨?_, ?_, by simp [semantic_search]⟩
  · simp [semantic_search]
  · intro r hr
    have hr' : r ∈ qr.map (fun t =>
        ({ text := t.1, page := t.2.1, distance := t.2.2,
           similarity := if t.2.2 ≠ (0 : ℚ) then (1 : ℚ) - t.2.2 else (1 : ℚ) } :
          SearchResult)) := by
      simpa [semantic_search] using hr
    rcases List.mem_map.mp hr' with ⟨t, -, rfl⟩
    refine ⟨?_, ?_, ?_⟩ <;> dsimp only
    · intro h0
      rw [if_neg (by simpa using h0)]
    · intro hne
      rw [if_pos hne]
    · intro hlo hhi
      by_cases hz : t.2.2 = (0 : ℚ)
      · rw [if_neg (by simpa using hz)]
        norm_num
      · rw [if_pos hz]
        constructor <;> linarith

/-- Witness for C7 at a concrete query result. -/

theorem C7_similarity_witness :
    ((("t") , (1 : Int), (0 : ℚ)) ∈ [(("t"), (1 : Int), (0 : ℚ))]) ∧
    ∀ r ∈ semantic_search true [(("t"), (1 : Int), (0 : ℚ))], r.similarity = 1 := by
  refine ⟨by simp, ?_⟩
  intro r hr
  exact ((C7_similarity [(("t"), (1 : Int), (0 : ℚ))]).2.1 r hr).1 (by
    have : r ∈ [({ text := ("t"), page := 1, distance := 0, similarity := 1 } :
        SearchResult)] := by
      simpa [semantic_search] using hr
    rcases List.mem_singleton.mp this with rfl
    rfl)

/-- C3: under the default embedding configuration (provider
`sentence-transformers`), `initialize_embedding_system` leaves the collection
handle untouched (it assigns only `embedding_model`, plus the chroma client);
consequently, starting from a state with no collection, every upload's
`create_embeddings_for_document` returns `false` and `ask` can never take the
embedding branch. -/

theorem C3_default_config_no_collection (g : Globals) (loadOk : Bool)
    (domain : String) :
    ((initialize_embedding_system loadOk g default_embedding_config.provider
        default_embedding_config.model domain).1.collection = g.collection)
  ∧ (loadOk = true →
      (initialize_embedding_system loadOk g default_embedding_config.provider
          default_embedding_config.model domain).1.embedding_model =
        some default_embedding_config.model
      ∧ (initialize_embedding_system loadOk g default_embedding_config.provider
          default_embedding_config.model domain).2 = true)
  ∧ (g.collection = none →
      (∀ pages,
        (create_embeddings_for_document
          (initialize_embedding_system loadOk g default_embedding_config.provider
            default_embedding_config.model domain).1.embedding_model.isSome
          (initialize_embedding_system loadOk g default_embedding_config.provider
            default_embedding_config.model domain).1.collection.isSome
          pages).2.2 = false)
      ∧ ask_used_index (initialize_embedding_system loadOk g
          default_embedding_config.provider default_embedding_config.model
          domain).1 = false) := by
  have hcol : (initialize_embedding_system loadOk g default_embedding_config.provider
      default_embedding_config.model domain).1.collection = g.collection := by
    cases loadOk <;> simp [initialize_embedding_system, default_embedding_config]
  refine ⟨hcol, ?_, ?_⟩
  · intro hl
    subst hl
    simp [initialize_embedding_system, default_embedding_config]
  · intro hnone
    have hcs : (initialize_embedding_system loadOk g default_embedding_config.provider
        default_embedding_config.model domain).1.collection.isSome = false := by
      rw [hcol, hnone]
      rfl
    constructor
    · intro pages
      rw [create_embeddings_for_document, if_pos (by simp [hcs])]
    · simp [ask_used_index, hcs]

/-- Witness for C3 from the fresh process state. -/

theorem C3_default_config_no_collection_witness :
    ((initialize_embedding_system true initialGlobals
        default_embedding_config.provider default_embedding_config.model
        ("general")).1.collection = initialGlobals.collection)
  ∧ (create_embeddings_for_document
      (initialize_embedding_system true initialGlobals
        default_embedding_config.provider default_embedding_config.model
        ("general")).1.embedding_model.isSome
      (initialize_embedding_system true initialGlobals
        default_embedding_config.provider default_embedding_config.model
        ("general")).1.collection.isSome
      [pageA]).2.2 = false
  ∧ ask_used_index (initialize_embedding_system true initialGlobals
      default_embedding_config.provider default_embedding_config.model
      ("general")).1 = false := by
  have h := C3_default_config_no_collection initialGlobals true ("general")
  exact ⟨h.1, (h.2.2 rfl).1 [pageA], (h.2.2 rfl).2⟩

theorem sortDedup_singleton (p : Int) : sortDedup [p] = [p] := by
  simp [sortDedup, List.dedup_cons_of_not_mem, List.insertionSort]

/-- Evaluation of the backfill on a source list of at least two entries with
no citation already present: the sorted-deduplicated branch of
app.py lines 490-495 / 551-556. -/

theorem ensureSourceCitation_cons_cons (ans : String) (a b : Int) (t : List Int)
    (hno : strContains ans ("(Source:") = false) :
    ensureSourceCitation ans (a :: b :: t) =
      (if (sortDedup (a :: b :: t)).length ≤ 3 then
        ans ++ (" (Source: Pages ") ++
          String.intercalate (", ") ((sortDedup (a :: b :: t)).map toString) ++ (")")
      else
        ans ++ (" (Source: Pages ") ++ toString ((sortDedup (a :: b :: t)).headD 0) ++
          ("-") ++ toString ((sortDedup (a :: b :: t)).getLastD 0) ++ (")")) := by
  rw [ensureSourceCitation, if_pos (⟨hno, by simp⟩ :
    strContains ans ("(Source:") = false ∧ a :: b :: t ≠ [])]
  intro p hp
  simp at hp

/-- C5: for both generation providers, when the model reply (stripped) lacks
the substring `(Source:` and `page_sources` is non-empty, the appended
citation is: raw singleton source list → `(Source: Page N)`; 2 or 3 distinct
pages → ascending comma-joined `(Source: Pages X, Y, Z)`; more than 3
distinct pages → compressed range `(Source: Pages min-max)` (head and last of
the ascending deduplicated list). -/

theorem C5_citation_backfill (env : AskEnv) (resp q : String)
    (ctx : Option String) (srcs : List Int)
    (hcli : env.openai_client = true)
    (hok : env.openaiResult = .ok resp)
    (hgok : env.geminiResult = .ok resp)
    (hno : strContains (pyStrip resp) ("(Source:") = false)
    (hne : srcs ≠ []) :
    answer_question_with_openai env q ctx srcs =
      .ok (ensureSourceCitation (pyStrip resp) srcs)
  ∧ answer_question_with_gemini env q ctx srcs =
      ensureSourceCitation (pyStrip resp) srcs
  ∧ (∀ p, srcs = [p] →
      ensureSourceCitation (pyStrip resp) srcs =
        pyStrip resp ++ (" (Source: Page ") ++ toString p ++ (")"))
  ∧ ((sortDedup srcs).length = 2 ∨ (sortDedup srcs).length = 3 →
      ensureSourceCitation (pyStrip resp) srcs =
        pyStrip resp ++ (" (Source: Pages ") ++
          String.intercalate (", ") ((sortDedup srcs).map toString) ++ (")"))
  ∧ (3 < (sortDedup srcs).length →
      ensureSourceCitation (pyStrip resp) srcs =
        pyStrip resp ++ (" (Source: Pages ") ++ toString ((sortDedup srcs).headD 0) ++
          ("-") ++ toString ((sortDedup srcs).getLastD 0) ++ (")")) := by
  have hcond : strContains (pyStrip resp) ("(Source:") = false ∧ srcs ≠ [] := ⟨hno, hne⟩
  refine ⟨?_, ?_, ?_, ?_, ?_⟩
  · rw [answer_question_with_openai, if_neg (by simp [hcli]), hok]
  · rw [answer_question_with_gemini, hgok]
  · intro p hp
    subst hp
    rw [ensureSourceCitation, if_pos hcond]
  · intro hlen
    rcases srcs with - | ⟨a, - | ⟨b, t⟩⟩
    · exact absurd rfl hne
    · rw [sortDedup_singleton] at hlen
      simp at hlen
    · rw [ensureSourceCitation_cons_cons (pyStrip resp) a b t hno,
        if_pos (by omega)]
  · intro hlen
    rcases srcs with - | ⟨a, - | ⟨b, t⟩⟩
    · exact absurd rfl hne
    · rw [sortDedup_singleton] at hlen
      simp at hlen
    · rw [ensureSourceCitation_cons_cons (pyStrip resp) a b t hno,
        if_neg (by omega)]

/-- Witness for C5: four distinct pages are compressed to a range by both
providers. -/

theorem C5_citation_backfill_witness :
    answer_question_with_openai envBothOk ("q") none [2, 1, 5, 3] =
      .ok (("An answer. (Source: Pages 1-5)"))
  ∧ answer_question_with_gemini envBothOk ("q") none [2, 1, 5, 3] =
      ("An answer. (Source: Pages 1-5)") := by
  have h := C5_citation_backfill envBothOk ("An answer.") ("q") none [2, 1, 5, 3]
    rfl rfl rfl (by decide) (by decide)
  have hr := h.2.2.2.2 (by decide)
  have hs : ensureSourceCitation (pyStrip ("An answer.")) [2, 1, 5, 3] =
      ("An answer. (Source: Pages 1-5)") := by
    rw [hr]
    decide
  exact ⟨by rw [h.1, hs], by rw [h.2.1, hs]⟩

/-- C1 counterexample: with Gemini configured as the provider and both
underlying API calls failing, the question `"hello"` contains none of the
trigger phrases, yet the returned answer is the string
`"Error generating answer: quota exceeded"` — produced by the Gemini
adapter's exception handler (app.py line 562), not by the deterministic
pattern matcher, and different from the fixed could-not-find message.  The
claim as stated is therefore false. -/

theorem C1_counterexample :
    (envC1.openaiResult = .error ("unavailable")
      ∧ envC1.geminiResult = .error ("quota exceeded"))
  ∧ answer_question_with_embeddings envC1 ("hello") [pageA] none [] =
      (("Error generating answer: quota exceeded"), [])
  ∧ (answer_question_simple envC1.re_findall ("hello") [pageA]).1 =
      couldntFindAnswer
  ∧ (("Error generating answer: quota exceeded") : String) ≠ couldntFindAnswer
  ∧ strContains (pyLower ("hello")) ("who signed") = false
  ∧ strContains (pyLower ("hello")) ("signed by") = false
  ∧ strContains (pyLower ("hello")) ("date") = false
  ∧ strContains (pyLower ("hello")) ("when") = false := by
  decide

/-- C1 (amended): a generation-provider failure is never fatal — the dispatch
always returns an answer string.  When no Gemini API key is configured and
the OpenAI attempt is unconfigured or its call fails, the answer is exactly
the deterministic pattern matcher's; if moreover the question contains none
of the trigger phrases `who signed`, `signed by`, `date`, `when`, the answer
is the fixed could-not-find string.  (When a Gemini key IS configured and the
Gemini call fails, the answer is instead the `Error generating answer: ...`
string returned by the Gemini adapter's exception handler.) -/

theorem C1_provider_failure_fallback (env : AskEnv) (q : String)
    (pages : List Page) (ctx : Option String) (srcs : List Int)
    (hg : env.gemini_api_key = false)
    (ho : env.openai_client = false ∨ ∃ e, env.openaiResult = .error e) :
    answer_question_with_embeddings env q pages ctx srcs =
      answer_question_simple env.re_findall q pages
  ∧ (strContains (pyLower q) ("who signed") = false →
     strContains (pyLower q) ("signed by") = false →
     strContains (pyLower q) ("date") = false →
     strContains (pyLower q) ("when") = false →
     (answer_question_with_embeddings env q pages ctx srcs).1 =
       couldntFindAnswer) := by
  have hmain : answer_question_with_embeddings env q pages ctx srcs =
      answer_question_simple env.re_findall q pages := by
    rcases ho with hcli | ⟨e, herr⟩
    · simp [answer_question_with_embeddings, answer_question_with_openai,
        hg, hcli]
    · by_cases hcli : env.openai_client = true
      · by_cases hprov : env.provider = ("openai")
        · simp [answer_question_with_embeddings, answer_question_with_openai,
            hg, hcli, hprov, herr, Except.toOption]
        · simp [answer_question_with_embeddings, answer_question_with_openai,
            hg, hcli, hprov, herr, Except.toOption]
      · have hcli' : env.openai_client = false := by
          revert hcli
          cases env.openai_client <;> simp
        simp [answer_question_with_embeddings, answer_question_with_openai,
          hg, hcli']
  refine ⟨hmain, ?_⟩
  intro h1 h2 h3 h4
  rw [hmain]
  rw [answer_question_simple]
  rw [if_neg (by simp [h1, h2]), if_neg (by simp [h3, h4])]

/-- Witness for C1: OpenAI configured but failing and no Gemini key — the
dispatch degrades to the matcher's fixed answer. -/

theorem C1_provider_failure_fallback_witness :
    answer_question_with_embeddings envNoGemini ("hello") [pageA] none [] =
      (couldntFindAnswer, []) := by
  have h := C1_provider_failure_fallback envNoGemini ("hello") [pageA] none []
    rfl (Or.inr ⟨("boom"), rfl⟩)
  rw [h.1]
  decide

/-- C2 counterexample: an upload under the default configuration loads the
embedding model but never creates a collection, so it reports
`embeddings_created = false`; the subsequent ask does not use the embedding
index (its answer is the deterministic matcher's fixed string, and the
embedding branch condition is false), yet the response's `method` field —
computed at app.py line 990 from `embedding_model` alone — reads
`"embeddings"`, not `"simple"`.  The claim as stated is therefore false. -/

theorem C2_counterexample :
    (upload_file initialGlobals default_embedding_config true ("doc.pdf") 100
      (.ok [pageA])).2.embeddings_created = false
  ∧ ask_used_index (upload_file initialGlobals default_embedding_config true
      ("doc.pdf") 100 (.ok [pageA])).1 = false
  ∧ ask_question (upload_file initialGlobals default_embedding_config true
      ("doc.pdf") 100 (.ok [pageA])).1 envNoProviders ("hello") =
    .ok { answer := couldntFindAnswer, cited_pages := [],
          method := ("embeddings"), context := none, pages_used := [] } := by
  decide

/-- C2 (amended): on every successful ask, the response's `method` field is
`"embeddings"` exactly when the `embedding_model` handle is set (truthy) —
regardless of whether the index was used.  The embedding branch (and with it
semantic retrieval) is taken only when the collection handle is also set;
whenever it is not, the answer is produced by the deterministic matcher even
though `method` may still read `"embeddings"`. -/

theorem C2_method_field (g : Globals) (env : AskEnv) (q : String)
    (hpages : g.current_pdf_pages ≠ []) (hq : q ≠ ("")) :
    ∃ r : AskResponse, ask_question g env q = .ok r
      ∧ (r.method = ("embeddings") ↔ g.embedding_model.isSome = true)
      ∧ (ask_used_index g = false →
          r.answer = (answer_question_simple env.re_findall q
            g.current_pdf_pages).1) := by
  rw [ask_question, if_neg hpages, if_neg hq]
  refine ⟨_, rfl, ?_, ?_⟩
  · cases hm : g.embedding_model.isSome
    · simp
    · simp
  · intro hused
    have hused' : ¬(ask_used_index g = true) := by simp [hused]
    dsimp only
    rw [if_neg hused']

/-- Witness for C2 in a no-model state: method is `"simple"` and the matcher
answers. -/

theorem C2_method_field_witness :
    ∃ r : AskResponse,
      ask_question { initialGlobals with current_pdf_pages := [pageA] }
        envNoProviders ("hello") = .ok r
      ∧ ¬(r.method = ("embeddings"))
      ∧ r.answer = couldntFindAnswer := by
  rcases C2_method_field { initialGlobals with current_pdf_pages := [pageA] }
      envNoProviders ("hello") (by decide) (by decide) with ⟨r, hr, hm, ha⟩
  refine ⟨r, hr, ?_, ?_⟩
  · intro hc
    exact absurd (hm.mp hc) (by decide)
  · rw [ha (by decide)]
    decide

/-- C4 counterexample: uploading a PDF from which zero pages are extracted
fails and cleans up the upload file, but — because `current_pdf_pages` is
assigned BEFORE the emptiness check (app.py line 814 vs 816) — the stored
page records are clobbered to the empty list while the concatenated text and
path still refer to the previous document.  The previously loaded document's
state is NOT left unchanged, so the claim as stated is false. -/

theorem C4_counterexample :
    (upload_file gOld default_embedding_config true ("new.pdf") 100
      (.ok [])).2.ok = false
  ∧ (upload_file gOld default_embedding_config true ("new.pdf") 100
      (.ok [])).2.fileRetained = false
  ∧ gOld.current_pdf_pages = [pOld]
  ∧ (upload_file gOld default_embedding_config true ("new.pdf") 100
      (.ok [])).1.current_pdf_pages = []
  ∧ (upload_file gOld default_embedding_config true ("new.pdf") 100
      (.ok [])).1.current_pdf_text = some ("old page text")
  ∧ (upload_file gOld default_embedding_config true ("new.pdf") 100
      (.ok [])).1.current_pdf_path = some ("old.pdf")
  ∧ ([] : List Page) ≠ [pOld] := by
  decide

/-- Reinitializing the embedding system never touches the document half of
the global state: only `chroma_client`, `embedding_model` and `collection`
are assigned (app.py lines 176-225). -/

theorem initialize_preserves_document (loadOk : Bool) (g : Globals)
    (provider model_name domain : String) :
    (initialize_embedding_system loadOk g provider model_name
      domain).1.current_pdf_pages = g.current_pdf_pages
  ∧ (initialize_embedding_system loadOk g provider model_name
      domain).1.current_pdf_text = g.current_pdf_text
  ∧ (initialize_embedding_system loadOk g provider model_name
      domain).1.current_pdf_path = g.current_pdf_path := by
  unfold initialize_embedding_system
  dsimp only
  split_ifs <;> exact ⟨rfl, rfl, rfl⟩

/-- C4 (amended): upload replaces the document state on success (the stored
pages, path and concatenated text all refer to the new document) and leaves
the previous state fully unchanged on a size rejection, a non-PDF filename,
or a raised extraction error, cleaning up the upload file on every failure —
EXCEPT that when extraction succeeds with zero pages, the stored page records
are clobbered to the empty list while the previous concatenated text and path
are kept, so the replacement is not atomic in that one case. -/

theorem C4_upload_replacement (g : Globals) (cfg : EmbeddingConfig)
    (loadOk : Bool) (fn : String) (sz : Nat)
    (ex : Except String (List Page)) :
    (sz > MAX_CONTENT_LENGTH ∨ strEndsWith (pyLower fn) (".pdf") = false →
      (upload_file g cfg loadOk fn sz ex).1 = g
      ∧ (upload_file g cfg loadOk fn sz ex).2.ok = false)
  ∧ (∀ e, ex = .error e → sz ≤ MAX_CONTENT_LENGTH →
      strEndsWith (pyLower fn) (".pdf") = true →
      (upload_file g cfg loadOk fn sz ex).1 = g
      ∧ (upload_file g cfg loadOk fn sz ex).2.ok = false
      ∧ (upload_file g cfg loadOk fn sz ex).2.fileRetained = false)
  ∧ (ex = .ok [] → sz ≤ MAX_CONTENT_LENGTH →
      strEndsWith (pyLower fn) (".pdf") = true →
      (upload_file g cfg loadOk fn sz ex).1 =
        { g with current_pdf_pages := [] }
      ∧ (upload_file g cfg loadOk fn sz ex).2.ok = false
      ∧ (upload_file g cfg loadOk fn sz ex).2.fileRetained = false)
  ∧ (∀ pages, ex = .ok pages → pages ≠ [] → sz ≤ MAX_CONTENT_LENGTH →
      strEndsWith (pyLower fn) (".pdf") = true →
      (upload_file g cfg loadOk fn sz ex).1.current_pdf_pages = pages
      ∧ (upload_file g cfg loadOk fn sz ex).1.current_pdf_text =
          some (String.intercalate (" ") (pages.map (fun p => p.text)))
      ∧ (upload_file g cfg loadOk fn sz ex).1.current_pdf_path = some fn
      ∧ (upload_file g cfg loadOk fn sz ex).2.ok = true
      ∧ (upload_file g cfg loadOk fn sz ex).2.fileRetained = true) := by
  refine ⟨?_, ?_, ?_, ?_⟩
  · rintro (hsz | hpdf)
    · rw [upload_file.eq_def, if_pos hsz]
      exact ⟨rfl, rfl⟩
    · by_cases hsz : sz > MAX_CONTENT_LENGTH
      · rw [upload_file.eq_def, if_pos hsz]
        exact ⟨rfl, rfl⟩
      · rw [upload_file.eq_def, if_neg hsz, if_pos (by simp [hpdf])]
        exact ⟨rfl, rfl⟩
  · intro e he hsz hpdf
    subst he
    rw [upload_file.eq_def, if_neg (by omega), if_neg (by simp [hpdf])]
    exact ⟨rfl, rfl, rfl⟩
  · intro he hsz hpdf
    subst he
    rw [upload_file.eq_def, if_neg (by omega), if_neg (by simp [hpdf])]
    exact ⟨rfl, rfl, rfl⟩
  · intro pages he hne hsz hpdf
    subst he
    rw [upload_file.eq_def, if_neg (by omega), if_neg (by simp [hpdf])]
    dsimp only
    rw [if_neg hne]
    refine ⟨?_, ?_, ?_, rfl, rfl⟩
    · dsimp only
      split
      · rw [(initialize_preserves_document _ _ _ _ _).1]
      · rfl
    · dsimp only
      split
      · rw [(initialize_preserves_document _ _ _ _ _).2.1]
      · rfl
    · dsimp only
      split
      · rw [(initialize_preserves_document _ _ _ _ _).2.2]
      · rfl

/-- Witness for C4: a raised extraction error leaves the state untouched; a
successful upload installs the new document. -/

theorem C4_upload_replacement_witness :
    (upload_file gOld default_embedding_config true ("new.pdf") 100
      (.error ("kaboom"))).1 = gOld
  ∧ (upload_file gOld default_embedding_config true ("ok.pdf") 100
      (.ok [pageA])).1.current_pdf_pages = [pageA]
  ∧ (upload_file gOld default_embedding_config true ("ok.pdf") 100
      (.ok [pageA])).2.ok = true := by
  have h1 := (C4_upload_replacement gOld default_embedding_config true
    ("new.pdf") 100 (.error ("kaboom"))).2.1 ("kaboom") rfl (by decide) (by decide)
  have h2 := (C4_upload_replacement gOld default_embedding_config true
    ("ok.pdf") 100 (.ok [pageA])).2.2.2 [pageA] rfl (by decide) (by decide)
    (by decide)
  exact ⟨h1.1, h2.1, h2.2.2.2.1⟩

/-- Pages resolved by the citation step are always strictly ascending, hence
deduplicated and sorted. -/

theorem resolve_cited_pages_pairwise (answer : String) (page_sources : List Int) :
    List.Pairwise (· < ·) (resolve_cited_pages answer page_sources) := by
  unfold resolve_cited_pages
  exact sortDedup_pairwise_lt _

/-- C6: the citation extraction of `ask` parses every `(Source: Page(s) ...)`
occurrence, splits on commas, expands `-` tokens as inclusive ranges, skips
unparseable tokens silently, and the `cited_pages` of every successful ask
response are deduplicated and sorted ascending on every path — including the
fallback to the raw retrieval `page_sources` when no citation parses. -/

theorem C6_citation_resolution :
    (∀ (g : Globals) (env : AskEnv) (q : String) (r : AskResponse),
        ask_question g env q = .ok r → List.Pairwise (· < ·) r.cited_pages)
  ∧ (∀ (answer : String) (page_sources : List Int),
        List.Pairwise (· < ·) (resolve_cited_pages answer page_sources))
  ∧ resolve_cited_pages ("(Source: Pages 1, 3, 5)") [] = [1, 3, 5]
  ∧ resolve_cited_pages ("(Source: Page 7)") [] = [7]
  ∧ resolve_cited_pages ("(Source: Pages 2-4)") [] = [2, 3, 4]
  ∧ resolve_cited_pages ("See (Source: Page 2) and (Source: Pages 5-6)") [9] =
      [2, 5, 6]
  ∧ resolve_cited_pages ("(Source: Pages 1,,3)") [] = [1, 3]
  ∧ resolve_cited_pages ("no citation") [3, 1, 3] = [1, 3] := by
  refine ⟨?_, resolve_cited_pages_pairwise, by decide, by decide, by decide,
    by decide, by decide, by decide⟩
  intro g env q r h
  rw [ask_question] at h
  by_cases hp : g.current_pdf_pages = []
  · rw [if_pos hp] at h
    exact absurd h (by simp)
  · rw [if_neg hp] at h
    by_cases hq : q = ("")
    · rw [if_pos hq] at h
      exact absurd h (by simp)
    · rw [if_neg hq] at h
      cases Except.ok.inj h
      exact resolve_cited_pages_pairwise _ _

/-- Witness for C6: a model-produced citation `Pages 3, 1` comes back as the
sorted deduplicated `[1, 3]` in a full ask round trip. -/

theorem C6_citation_resolution_witness :
    ask_question gIdx envGemCite ("hi") =
      .ok { answer := ("See pages. (Source: Pages 3, 1)"),
            cited_pages := [1, 3], method := ("embeddings"),
            context := none, pages_used := [] }
  ∧ List.Pairwise (· < ·) ([1, 3] : List Int) := by
  constructor
  · decide
  · exact C6_citation_resolution.1 gIdx envGemCite ("hi")
      { answer := ("See pages. (Source: Pages 3, 1)"),
        cited_pages := [1, 3], method := ("embeddings"),
        context := none, pages_used := [] } (by decide)
